/-
Verification of the decision core of the smart_recycling_bin repository.

The development shallowly embeds the two revisions of the waste-classification
engine found in the repository:

* `SmartBin.Basic`    — `src/smart_bin/core/knowledge_engine.py`
  (the revision with manual override support, 14 rules);
* `SmartBin.Services` — `python-services/src/smart_bin/core/knowledge_engine.py`
  (the "comprehensive" revision, 37 rules plus a terminal fallback).

Both engines share the data model of `models/waste_types.py`,
`models/decisions.py` and the resolver of `core/resolver.py`.

Modelling conventions:
* Python floats are modelled as rationals (`ℚ`); every numeric constant in the
  source is decimal, so this is exact for all comparisons the code performs.
* An experta `Fact` field that was not passed to the constructor is modelled as
  `none`; a pattern that mentions a field fails to match when the field is
  `none`, mirroring experta, whose patterns require the key to be present.
  (No caller in the repository declares a field with an explicit Python
  `None`, so the `x is None` branch of the two `cv_label` predicates in the
  sensor-only rules is never exercised; `none` here means "key absent".)
* Python's `max(xs, key=k)` scans left to right and replaces the current best
  only when the new key is strictly greater, hence it returns the first
  element attaining the maximal key; `resolve_candidates` reproduces this
  with a left fold.
* The decimal rendering of floats inside f-strings (`{cv_conf:.2f}` in the
  terminal fallback's reason text) is abstracted by a plain `toString`; no
  claim depends on the rendered digits, only on the structure of the decision.
-/
import Mathlib

namespace SmartRecyclingBin

/-- `WasteCategory` from `models/waste_types.py`: a fixed closed enumeration. -/
inductive WasteCategory
  | ORGANIC
  | PLASTIC_PET
  | PLASTIC_SOFT
  | GLASS
  | METAL
  | PAPER
  | TEXTILE
  | EWASTE
  | HAZARDOUS
  | RUBBER
  | COMPOSITE
  | UNKNOWN
deriving DecidableEq, Repr, Fintype

open WasteCategory

/-- The `.value` string of each `WasteCategory` enum member. -/
def WasteCategory.value : WasteCategory → String
  | ORGANIC => "organic"
  | PLASTIC_PET => "plastic (PET)"
  | PLASTIC_SOFT => "plastic (soft)"
  | GLASS => "glass"
  | METAL => "metal"
  | PAPER => "paper"
  | TEXTILE => "textile"
  | EWASTE => "e-waste"
  | HAZARDOUS => "hazardous waste"
  | RUBBER => "rubber"
  | COMPOSITE => "composite material"
  | UNKNOWN => "unknown"

/-- `WasteClassification` dataclass from `models/waste_types.py`. -/
structure WasteClassification where
  category : WasteCategory
  confidence : ℚ
  reasoning : String
  disposal_location : String
  priority_score : Int := 0
deriving DecidableEq, Repr

/-- `ClassificationDecision` dataclass from `models/decisions.py`. -/
structure ClassificationDecision where
  final_classification : Option WasteClassification
  candidates : List WasteClassification
  reasoning_trace : List String
  is_manual_override : Bool
  confidence_score : ℚ
deriving DecidableEq, Repr

/-- Constructing a `ClassificationDecision` as the dataclass does: the caller
passes the first four fields, `confidence_score` starts at its default `0.0`
and `__post_init__` overwrites it with the final classification's confidence
whenever a final classification is present. -/
def mkClassificationDecision (final : Option WasteClassification)
    (cands : List WasteClassification) (trace : List String)
    (is_override : Bool) : ClassificationDecision :=
  { final_classification := final
    candidates := cands
    reasoning_trace := trace
    is_manual_override := is_override
    confidence_score :=
      match final with
      | some f => f.confidence
      | none => 0 }

/-- `WasteFact` from `core/facts.py`: the Evidence Record.  Every field is
optional; `none` models a field that was not passed to the fact constructor. -/
structure WasteFact where
  cv_label : Option String := none
  cv_confidence : Option ℚ := none
  weight_grams : Option ℚ := none
  is_metal : Option Bool := none
  humidity_percent : Option ℚ := none
  ir_transparency : Option ℚ := none
  is_moist : Option Bool := none
  is_transparent : Option Bool := none
  -- experta facts accept keys beyond the annotated ones; `is_flexible` is
  -- passed by the CLI and matched by the `Basic` engine's `rule_flexibility`.
  is_flexible : Option Bool := none
deriving DecidableEq, Repr

/-- `DecisionResolver.priority_order` from `core/resolver.py`, as a total
function (the Python dict contains every enum member, so the `.get` default
`0` is never used). -/
def priority_order : WasteCategory → ℕ
  | HAZARDOUS => 7
  | EWASTE => 6
  | GLASS => 5
  | METAL => 4
  | PLASTIC_PET => 3
  | PLASTIC_SOFT => 2
  | PAPER => 3
  | ORGANIC => 4
  | TEXTILE => 2
  | RUBBER => 1
  | COMPOSITE => 1
  | UNKNOWN => 0

/-- The `sort_key` closure of `resolve_candidates`: the pair
`(priority, confidence)` compared lexicographically by Python's tuple order. -/
def sort_key (c : WasteClassification) : ℕ × ℚ :=
  (priority_order c.category, c.confidence)

/-- Strict lexicographic comparison of Python tuples `(priority, confidence)`. -/
def keyLt (a b : ℕ × ℚ) : Prop :=
  a.1 < b.1 ∨ (a.1 = b.1 ∧ a.2 < b.2)

/-- Non-strict lexicographic comparison of `(priority, confidence)` tuples. -/
def keyLe (a b : ℕ × ℚ) : Prop :=
  a.1 < b.1 ∨ (a.1 = b.1 ∧ a.2 ≤ b.2)

instance (a b : ℕ × ℚ) : Decidable (keyLt a b) := by
  unfold keyLt; exact inferInstance

instance (a b : ℕ × ℚ) : Decidable (keyLe a b) := by
  unfold keyLe; exact inferInstance

/-- One step of Python's `max(candidates, key=sort_key)`: the running best is
replaced only when the new element's key is strictly greater. -/
def maxStep (best x : WasteClassification) : WasteClassification :=
  if keyLt (sort_key best) (sort_key x) then x else best

/-- `DecisionResolver.resolve_candidates` from `core/resolver.py`:
`None` on an empty list, otherwise Python's `max` with key
`(priority, confidence)`, which keeps the first maximum. -/
def resolve_candidates : List WasteClassification → Option WasteClassification
  | [] => none
  | c :: cs => some (cs.foldl maxStep c)

theorem keyLe_refl (a : ℕ × ℚ) : keyLe a a := by
  unfold keyLe; right; exact ⟨rfl, le_refl _⟩

theorem not_keyLt_iff (a b : ℕ × ℚ) : ¬ keyLt a b ↔ keyLe b a := by
  unfold keyLt keyLe
  constructor
  · intro h
    push_neg at h
    rcases Nat.lt_or_ge b.1 a.1 with h1 | h1
    · exact Or.inl h1
    · have h3 : a.1 = b.1 := Nat.le_antisymm h1 h.1
      exact Or.inr ⟨h3.symm, h.2 h3⟩
  · intro h
    rintro (h1 | ⟨h1, h2⟩)
    · rcases h with h3 | ⟨h3, _⟩
      · omega
      · omega
    · rcases h with h3 | ⟨h3, h4⟩
      · omega
      · exact absurd h2 (not_lt.mpr h4)

theorem keyLe_of_keyLt {a b : ℕ × ℚ} (h : keyLt a b) : keyLe a b := by
  rcases h with h | ⟨h1, h2⟩
  · exact Or.inl h
  · exact Or.inr ⟨h1, le_of_lt h2⟩

theorem keyLt_of_keyLt_of_keyLe {a b c : ℕ × ℚ}
    (h1 : keyLt a b) (h2 : keyLe b c) : keyLt a c := by
  rcases h1 with h1 | ⟨h1a, h1b⟩ <;> rcases h2 with h2 | ⟨h2a, h2b⟩
  · exact Or.inl (by omega)
  · exact Or.inl (by omega)
  · exact Or.inl (by omega)
  · exact Or.inr ⟨by omega, lt_of_lt_of_le h1b h2b⟩

theorem keyLt_of_keyLe_of_keyLt {a b c : ℕ × ℚ}
    (h1 : keyLe a b) (h2 : keyLt b c) : keyLt a c := by
  rcases h1 with h1 | ⟨h1a, h1b⟩ <;> rcases h2 with h2 | ⟨h2a, h2b⟩
  · exact Or.inl (by omega)
  · exact Or.inl (by omega)
  · exact Or.inl (by omega)
  · exact Or.inr ⟨by omega, lt_of_le_of_lt h1b h2b⟩

theorem keyLe_trans {a b c : ℕ × ℚ} (h1 : keyLe a b) (h2 : keyLe b c) :
    keyLe a c := by
  rcases h1 with h1 | ⟨h1a, h1b⟩ <;> rcases h2 with h2 | ⟨h2a, h2b⟩
  · exact Or.inl (by omega)
  · exact Or.inl (by omega)
  · exact Or.inl (by omega)
  · exact Or.inr ⟨by omega, le_trans h1b h2b⟩

theorem foldl_maxStep_mem (cs : List WasteClassification) (c : WasteClassification) :
    cs.foldl maxStep c ∈ c :: cs := by
  induction cs generalizing c with
  | nil => simp
  | cons x xs ih =>
    simp only [List.foldl_cons]
    rcases List.mem_cons.mp (ih (maxStep c x)) with h | h
    · rw [h]
      unfold maxStep
      by_cases hk : keyLt (sort_key c) (sort_key x)
      · simp [hk]
      · simp [hk]
    · exact List.mem_cons_of_mem _ (List.mem_cons_of_mem _ h)

theorem keyLe_self_maxStep_left (c x : WasteClassification) :
    keyLe (sort_key c) (sort_key (maxStep c x)) := by
  unfold maxStep
  by_cases hk : keyLt (sort_key c) (sort_key x)
  · simp only [hk, if_true]
    exact keyLe_of_keyLt hk
  · simp only [hk, if_false]
    exact keyLe_refl _

theorem keyLe_self_maxStep_right (c x : WasteClassification) :
    keyLe (sort_key x) (sort_key (maxStep c x)) := by
  unfold maxStep
  by_cases hk : keyLt (sort_key c) (sort_key x)
  · simp only [hk, if_true]
    exact keyLe_refl _
  · simp only [hk, if_false]
    exact (not_keyLt_iff _ _).mp hk

theorem keyLe_foldl_maxStep (cs : List WasteClassification) (c : WasteClassification) :
    ∀ x ∈ c :: cs, keyLe (sort_key x) (sort_key (cs.foldl maxStep c)) := by
  induction cs generalizing c with
  | nil =>
    intro x hx
    rcases List.mem_cons.mp hx with h | h
    · rw [h]; exact keyLe_refl _
    · exact absurd h (List.not_mem_nil x)
  | cons y ys ih =>
    intro x hx
    simp only [List.foldl_cons]
    have hbest : keyLe (sort_key (maxStep c y))
        (sort_key (ys.foldl maxStep (maxStep c y))) :=
      ih (maxStep c y) _ (List.mem_cons_self _ _)
    rcases List.mem_cons.mp hx with h | h
    · rw [h]
      exact keyLe_trans (keyLe_self_maxStep_left c y) hbest
    · rcases List.mem_cons.mp h with h' | h'
      · rw [h']
        exact keyLe_trans (keyLe_self_maxStep_right c y) hbest
      · exact ih (maxStep c y) x (List.mem_cons_of_mem _ h')

theorem foldl_maxStep_first (cs : List WasteClassification) (c : WasteClassification) :
    ∃ l1 l2, c :: cs = l1 ++ (cs.foldl maxStep c) :: l2 ∧
      ∀ x ∈ l1, keyLt (sort_key x) (sort_key (cs.foldl maxStep c)) := by
  induction cs generalizing c with
  | nil => exact ⟨[], [], rfl, by simp⟩
  | cons y ys ih =>
    simp only [List.foldl_cons]
    by_cases hk : keyLt (sort_key c) (sort_key y)
    · have hmx : maxStep c y = y := by unfold maxStep; simp [hk]
      rw [hmx]
      obtain ⟨l1, l2, heq, hlt⟩ := ih y
      refine ⟨c :: l1, l2, ?_, ?_⟩
      · show c :: y :: ys = c :: (l1 ++ ys.foldl maxStep y :: l2)
        rw [← heq]
      · intro x hx
        rcases List.mem_cons.mp hx with h | h
        · rw [h]
          have hy : keyLe (sort_key y) (sort_key (ys.foldl maxStep y)) :=
            keyLe_foldl_maxStep ys y y (List.mem_cons_self _ _)
          exact keyLt_of_keyLt_of_keyLe hk hy
        · exact hlt x h
    · have hmx : maxStep c y = c := by unfold maxStep; simp [hk]
      rw [hmx]
      obtain ⟨l1, l2, heq, hlt⟩ := ih c
      cases l1 with
      | nil =>
        have hc : c = ys.foldl maxStep c := by
          have h0 : c :: ys = ys.foldl maxStep c :: l2 := by simpa using heq
          exact ((List.cons.injEq _ _ _ _).mp h0).1
        refine ⟨[], y :: ys, ?_, by simp⟩
        simp only [List.nil_append]
        rw [← hc]
      | cons a l1' =>
        have hinj := (List.cons.injEq _ _ _ _).mp (by simpa using heq)
        have ha : c = a := hinj.1
        have hys : ys = l1' ++ ys.foldl maxStep c :: l2 := hinj.2
        have hcr : keyLt (sort_key c) (sort_key (ys.foldl maxStep c)) := by
          have h1 := hlt a (List.mem_cons_self _ _)
          rw [← ha] at h1
          exact h1
        refine ⟨c :: y :: l1', l2, ?_, ?_⟩
        · show c :: y :: ys = c :: y :: (l1' ++ ys.foldl maxStep c :: l2)
          rw [← hys]
        · intro x hx
          rcases List.mem_cons.mp hx with h | h
          · rw [h]; exact hcr
          · rcases List.mem_cons.mp h with h' | h'
            · rw [h']
              have hyc : keyLe (sort_key y) (sort_key c) := (not_keyLt_iff _ _).mp hk
              exact keyLt_of_keyLe_of_keyLt hyc hcr
            · exact hlt x (List.mem_cons_of_mem _ h')

/-- Experta field predicate `field=P(p)` on a numeric field: the pattern
matches only when the field is present and `p` holds.  `qgt o t` models
`P(lambda v: v > t)`. -/
def qgt (o : Option ℚ) (t : ℚ) : Bool :=
  match o with
  | some x => decide (t < x)
  | none => false

/-- `qge o t` models `P(lambda v: v >= t)`. -/
def qge (o : Option ℚ) (t : ℚ) : Bool :=
  match o with
  | some x => decide (t ≤ x)
  | none => false

/-- `qlt o t` models `P(lambda v: v < t)`. -/
def qlt (o : Option ℚ) (t : ℚ) : Bool :=
  match o with
  | some x => decide (x < t)
  | none => false

/-- `qle o t` models `P(lambda v: v <= t)`. -/
def qle (o : Option ℚ) (t : ℚ) : Bool :=
  match o with
  | some x => decide (x ≤ t)
  | none => false

/-- Experta pattern `cv_label=MATCH.cv_label & P(lambda x: x in ls)`. -/
def labelIn (o : Option String) (ls : List String) : Bool :=
  match o with
  | some x => ls.contains x
  | none => false

/-- Experta pattern `cv_label=MATCH.cv_label & P(lambda x: x not in ls)`. -/
def labelNotIn (o : Option String) (ls : List String) : Bool :=
  match o with
  | some x => !ls.contains x
  | none => false

/-- Experta pattern `cv_label=P(lambda x: x == 'unknown' or x is None)`.
A missing key never matches any pattern in experta, and no caller in the
repository passes an explicit Python `None`, so under our encoding the
`x is None` branch is never taken. -/
def labelUnknown (o : Option String) : Bool :=
  match o with
  | some x => x == "unknown"
  | none => false

/-- The food label list shared by `rule_definitive_moist_food` and
`rule_moist_non_food_item` and `rule_low_confidence_food`. -/
def food_labels : List String :=
  ["banana", "apple", "orange", "carrot", "broccoli",
   "hot dog", "pizza", "donut", "cake", "sandwich"]

def fresh_food_labels : List String :=
  ["banana", "apple", "orange", "carrot", "broccoli"]

def prepared_food_labels : List String :=
  ["hot dog", "pizza", "donut", "cake", "sandwich"]

/-
`SmartBin.Services` — the engine of
`python-services/src/smart_bin/core/knowledge_engine.py`.
Rules are declared in strictly descending salience order in the source, and
all saliences are pairwise distinct, so experta's conflict resolution fires
them exactly in declaration order; `fire_rules` performs this single ordered
pass for the one declared `WasteFact`.
-/
namespace Services

/-- The mutable per-instance state of `SmartBinKnowledgeEngine`
(`self.candidates`, `self.reasoning_trace`) together with experta's working
memory, which holds at most the one declared `WasteFact`. -/
structure Engine where
  candidates : List WasteClassification
  reasoning_trace : List String
  fact : Option WasteFact
deriving DecidableEq, Repr

/-- `__init__`: empty candidate list, empty trace, no declared fact. -/
def init : Engine := ⟨[], [], none⟩

/-- `add_candidate`: appends the classification and one trace line. -/
def add_candidate (s : Engine) (category : WasteCategory) (confidence : ℚ)
    (reasoning : String) (disposal_location : String) : Engine :=
  { s with
    candidates := s.candidates ++ [⟨category, confidence, reasoning, disposal_location, 0⟩]
    reasoning_trace := s.reasoning_trace ++ ["-> RULE FIRED: " ++ reasoning] }

/-- `get_final_decision`: resolves the accumulated candidates and snapshots
the state (this engine revision has no manual override, so
`is_manual_override` keeps the dataclass default `False`). -/
def get_final_decision (s : Engine) : ClassificationDecision :=
  mkClassificationDecision (resolve_candidates s.candidates)
    s.candidates s.reasoning_trace false

/-- `reset`: clears candidates and trace; `super().reset()` retracts every
declared fact from working memory. -/
def reset (_ : Engine) : Engine := ⟨[], [], none⟩

/-- experta `declare`: puts the single evidence record in working memory. -/
def declare (s : Engine) (e : WasteFact) : Engine := { s with fact := some e }

/-- The label each `MATCH.cv_label` binding interpolates into the reason
string; every use is guarded by a pattern that requires the label present. -/
def lbl (e : WasteFact) : String := e.cv_label.getD ""

/-- The 37 production rules, fired in descending salience order against the
single declared fact `e`. -/
def fire_rules (e : WasteFact) (s : Engine) : Engine :=
  -- salience 110, rule_definitive_metal
  let s := if e.is_metal == some true then
    add_candidate s METAL 0.99
      "Metal sensor triggered. This is the most reliable indicator for metal objects."
      "Metal Recycling Bin" else s
  -- salience 105, rule_definitive_moist_food
  let s := if e.is_moist == some true && labelIn e.cv_label food_labels then
    add_candidate s ORGANIC 0.99
      ("Moisture sensor indicates high humidity AND visual detection confirms food item ('"
        ++ lbl e ++ "'). Definitive organic waste.")
      "Organic Waste / Compost Bin" else s
  -- salience 100, rule_very_moist_organic
  let s := if e.is_moist == some true && qgt e.humidity_percent 80 then
    add_candidate s ORGANIC 0.98
      "Very high moisture content (>80%). Strong indicator of organic waste or wet food."
      "Organic Waste / Compost Bin" else s
  -- salience 98, rule_high_confidence_fresh_food
  let s := if labelIn e.cv_label fresh_food_labels && qgt e.cv_confidence 0.8 then
    add_candidate s ORGANIC 0.97
      ("High confidence visual detection of fresh produce ('" ++ lbl e ++ "').")
      "Organic Waste / Compost Bin" else s
  -- salience 97, rule_high_confidence_prepared_food
  let s := if labelIn e.cv_label prepared_food_labels && qgt e.cv_confidence 0.8 then
    add_candidate s ORGANIC 0.95
      ("High confidence visual detection of prepared food ('" ++ lbl e ++ "').")
      "Organic Waste / Compost Bin" else s
  -- salience 95, rule_high_confidence_book
  let s := if e.cv_label == some "book" && qgt e.cv_confidence 0.7 then
    add_candidate s PAPER 0.95
      "High confidence visual detection of a 'book' - clearly paper recyclable."
      "Paper Recycling Bin" else s
  -- salience 94, rule_high_confidence_cutlery
  let s := if labelIn e.cv_label ["fork", "knife", "spoon", "scissors"]
      && qgt e.cv_confidence 0.7 then
    add_candidate s METAL 0.93
      ("High confidence visual detection of '" ++ lbl e ++ "' - typically metal utensils.")
      "Metal Recycling Bin" else s
  -- salience 92, rule_high_confidence_wine_glass
  let s := if e.cv_label == some "wine glass" && qgt e.cv_confidence 0.8 then
    add_candidate s GLASS 0.95
      "High confidence visual detection of 'wine glass' - clearly glass material."
      "Glass Recycling Bin" else s
  -- salience 91, rule_high_confidence_vase (emits two candidates)
  let s := if e.cv_label == some "vase" && qgt e.cv_confidence 0.8 then
    add_candidate
      (add_candidate s GLASS 0.85
        "High confidence visual detection of 'vase' - likely glass or ceramic."
        "Glass Recycling Bin")
      UNKNOWN 0.7 "Could be ceramic vase" "Manual Inspection Bin" else s
  -- salience 90, rule_high_confidence_toothbrush
  let s := if e.cv_label == some "toothbrush" && qgt e.cv_confidence 0.7 then
    add_candidate s UNKNOWN 0.9
      "High confidence visual detection of 'toothbrush' - typically plastic but not recyclable."
      "Manual Inspection Bin" else s
  -- salience 88, rule_heavy_transparent_bottle
  let s := if e.is_metal == some false && e.is_transparent == some true
      && e.cv_label == some "bottle" && qgt e.weight_grams 150 then
    add_candidate s GLASS 0.96
      "Fusion: Visually a 'bottle', transparent, not metal, and heavy (>150g). Strong evidence for glass bottle."
      "Glass Recycling Bin" else s
  -- salience 87, rule_medium_weight_transparent_bottle (30 < w <= 150)
  let s := if e.is_metal == some false && e.is_transparent == some true
      && e.cv_label == some "bottle" && qgt e.weight_grams 30 && qle e.weight_grams 150 then
    add_candidate s PLASTIC_PET 0.92
      "Fusion: Visually a 'bottle', transparent, not metal, medium weight (30-150g). Likely plastic bottle."
      "Plastic (PET) Recycling Bin" else s
  -- salience 86, rule_very_light_bottle
  let s := if e.is_metal == some false && e.cv_label == some "bottle"
      && qle e.weight_grams 30 then
    add_candidate s PLASTIC_PET 0.95
      "Fusion: Visually a 'bottle', not metal, and very lightweight (≤30g). Definitely plastic."
      "Plastic (PET) Recycling Bin" else s
  -- salience 85, rule_heavy_transparent_drinkware
  let s := if e.is_metal == some false && e.is_transparent == some true
      && labelIn e.cv_label ["cup", "wine glass"] && qgt e.weight_grams 100 then
    add_candidate s GLASS 0.94
      ("Fusion: Visually '" ++ lbl e ++ "', transparent, not metal, and heavy (>100g). Strong evidence for glass.")
      "Glass Recycling Bin" else s
  -- salience 84, rule_light_transparent_cup
  let s := if e.is_metal == some false && e.is_transparent == some true
      && e.cv_label == some "cup" && qle e.weight_grams 100 then
    add_candidate s PLASTIC_PET 0.90
      "Fusion: Visually a 'cup', transparent, not metal, and lightweight (≤100g). Likely plastic cup."
      "Plastic (PET) Recycling Bin" else s
  -- salience 83, rule_light_opaque_dry_cup
  let s := if e.is_metal == some false && e.is_transparent == some false
      && e.cv_label == some "cup" && qlt e.weight_grams 50 && e.is_moist == some false then
    add_candidate s PAPER 0.92
      "Fusion: Visually a 'cup', opaque, not metal, lightweight (<50g), and dry. Strong evidence for paper cup."
      "Paper Recycling Bin" else s
  -- salience 82, rule_lightweight_plastic_cutlery
  let s := if labelIn e.cv_label ["fork", "knife", "spoon"] && e.is_metal == some false
      && qlt e.weight_grams 10 then
    add_candidate s PLASTIC_PET 0.85
      ("Fusion: Visually '" ++ lbl e ++ "', not metal, very lightweight (<10g). Disposable plastic cutlery.")
      "Plastic (PET) Recycling Bin" else s
  -- salience 81, rule_light_dry_bowl (emits two candidates)
  let s := if e.cv_label == some "bowl" && e.is_metal == some false
      && qlt e.weight_grams 30 && e.is_moist == some false then
    add_candidate
      (add_candidate s PAPER 0.80
        "Fusion: Visually a 'bowl', not metal, lightweight (<30g), and dry. Could be paper or plastic bowl."
        "Paper Recycling Bin")
      PLASTIC_PET 0.75
      "Fusion: Visually a 'bowl', not metal, lightweight (<30g), and dry. Could be paper or plastic bowl."
      "Plastic (PET) Recycling Bin" else s
  -- salience 80, rule_heavy_non_metal_bowl (emits two candidates)
  let s := if e.cv_label == some "bowl" && e.is_metal == some false
      && qgt e.weight_grams 100 then
    add_candidate
      (add_candidate s GLASS 0.70
        "Fusion: Visually a 'bowl', not metal, but heavy (>100g). Likely ceramic or thick glass."
        "Glass Recycling Bin")
      UNKNOWN 0.85 "Could be ceramic bowl" "Manual Inspection Bin" else s
  -- salience 79, rule_heavy_transparent_vase
  let s := if e.cv_label == some "vase" && e.is_metal == some false
      && e.is_transparent == some true && qgt e.weight_grams 200 then
    add_candidate s GLASS 0.95
      "Fusion: Visually a 'vase', not metal, transparent, and heavy (>200g). Glass vase."
      "Glass Recycling Bin" else s
  -- salience 78, rule_heavy_opaque_vase
  let s := if e.cv_label == some "vase" && e.is_metal == some false
      && e.is_transparent == some false && qgt e.weight_grams 300 then
    add_candidate s UNKNOWN 0.90
      "Fusion: Visually a 'vase', not metal, opaque, and very heavy (>300g). Likely ceramic vase."
      "Manual Inspection Bin" else s
  -- salience 77, rule_moist_non_food_item (emits two candidates)
  let s := if e.is_metal == some false && e.is_moist == some true
      && labelNotIn e.cv_label food_labels then
    add_candidate
      (add_candidate s ORGANIC 0.70
        ("Fusion: Item appears to be '" ++ lbl e ++ "' but is moist. Could be contaminated or wet waste.")
        "Organic Waste / Compost Bin")
      UNKNOWN 0.75 "Contaminated item needs inspection" "Manual Inspection Bin" else s
  -- salience 75, rule_very_heavy_non_metal
  let s := if qgt e.weight_grams 500 && e.is_metal == some false then
    add_candidate s UNKNOWN 0.85
      "Sensor-driven: Item is very heavy (>500g) but not metal. Could be ceramic, stone, or dense material."
      "Manual Inspection Bin" else s
  -- salience 74, rule_heavy_transparent_unknown (emits two candidates)
  let s := if e.is_transparent == some true && qgt e.weight_grams 200
      && e.is_metal == some false
      && labelNotIn e.cv_label ["bottle", "cup", "wine glass", "vase"] then
    add_candidate
      (add_candidate s GLASS 0.80
        ("Fusion: Item appears to be '" ++ lbl e ++ "', is transparent and heavy (>200g) but not metal. Likely glass but unusual shape.")
        "Glass Recycling Bin")
      UNKNOWN 0.70 "Unusual glass item" "Manual Inspection Bin" else s
  -- salience 65, rule_moderate_confidence_fresh_food (0.5 <= c <= 0.8)
  let s := if labelIn e.cv_label fresh_food_labels
      && qge e.cv_confidence 0.5 && qle e.cv_confidence 0.8 then
    add_candidate s ORGANIC 0.85
      ("Moderate confidence visual detection of fresh produce ('" ++ lbl e ++ "'). Likely organic.")
      "Organic Waste / Compost Bin" else s
  -- salience 64, rule_moderate_confidence_prepared_food
  let s := if labelIn e.cv_label prepared_food_labels
      && qge e.cv_confidence 0.5 && qle e.cv_confidence 0.8 then
    add_candidate s ORGANIC 0.80
      ("Moderate confidence visual detection of prepared food ('" ++ lbl e ++ "'). Likely organic.")
      "Organic Waste / Compost Bin" else s
  -- salience 60, rule_ambiguous_bottle_weight_unknown (emits two candidates)
  let s := if e.is_metal == some false && e.cv_label == some "bottle"
      && qgt e.cv_confidence 0.6 then
    add_candidate
      (add_candidate s PLASTIC_PET 0.75
        "Visual detection of 'bottle' with good confidence, not metal, but other sensors ambiguous."
        "Plastic (PET) Recycling Bin")
      GLASS 0.70
      "Visual detection of 'bottle' with good confidence, not metal, but other sensors ambiguous."
      "Glass Recycling Bin" else s
  -- salience 59, rule_ambiguous_cup_material_unknown (emits three candidates)
  let s := if e.is_metal == some false && e.cv_label == some "cup"
      && qgt e.cv_confidence 0.6 then
    add_candidate
      (add_candidate
        (add_candidate s PLASTIC_PET 0.70
          "Visual detection of 'cup' with good confidence, not metal, but material unclear."
          "Plastic (PET) Recycling Bin")
        PAPER 0.70
        "Visual detection of 'cup' with good confidence, not metal, but material unclear."
        "Paper Recycling Bin")
      GLASS 0.65
      "Visual detection of 'cup' with good confidence, not metal, but material unclear."
      "Glass Recycling Bin" else s
  -- salience 58, rule_ambiguous_bowl_material_unknown (emits three candidates)
  let s := if e.cv_label == some "bowl" && e.is_metal == some false
      && qgt e.cv_confidence 0.6 then
    add_candidate
      (add_candidate
        (add_candidate s PLASTIC_PET 0.65
          "Visual detection of 'bowl' with good confidence, not metal, but material unclear."
          "Plastic (PET) Recycling Bin")
        PAPER 0.65
        "Visual detection of 'bowl' with good confidence, not metal, but material unclear."
        "Paper Recycling Bin")
      UNKNOWN 0.70 "Could be ceramic bowl" "Manual Inspection Bin" else s
  -- salience 57, rule_non_metal_cutlery_ambiguous
  let s := if labelIn e.cv_label ["fork", "knife", "spoon"] && e.is_metal == some false
      && qgt e.cv_confidence 0.6 then
    add_candidate s PLASTIC_PET 0.80
      ("Visual detection of '" ++ lbl e ++ "' but not metal. Likely plastic disposable cutlery.")
      "Plastic (PET) Recycling Bin" else s
  -- salience 55, rule_moist_non_food_contaminated
  let s := if e.is_moist == some true && labelIn e.cv_label ["book", "toothbrush"]
      && qgt e.cv_confidence 0.5 then
    add_candidate s UNKNOWN 0.85
      ("Item appears to be '" ++ lbl e ++ "' but is moist. Likely contaminated and not recyclable.")
      "Manual Inspection Bin" else s
  -- salience 35, rule_sensor_only_heavy_transparent
  let s := if e.is_transparent == some true && qgt e.weight_grams 150
      && e.is_metal == some false && labelUnknown e.cv_label then
    add_candidate s GLASS 0.80
      "Sensor-driven: No clear visual ID, but item is heavy (>150g), transparent, and not metal. Likely glass."
      "Glass Recycling Bin" else s
  -- salience 34, rule_sensor_only_light_transparent
  let s := if e.is_transparent == some true && qle e.weight_grams 150
      && e.is_metal == some false && labelUnknown e.cv_label then
    add_candidate s PLASTIC_PET 0.75
      "Sensor-driven: No clear visual ID, but item is lightweight (≤150g), transparent, and not metal. Likely plastic."
      "Plastic (PET) Recycling Bin" else s
  -- (salience 33 rule_sensor_only_light_opaque_dry is commented out in the source)
  -- salience 30, rule_sensor_only_moist_unknown
  let s := if e.is_moist == some true && labelUnknown e.cv_label then
    add_candidate s ORGANIC 0.65
      "Sensor-driven: No clear visual ID, but item is moist. Likely organic waste."
      "Organic Waste / Compost Bin" else s
  -- salience 25, rule_sensor_only_very_heavy_non_metal
  let s := if qgt e.weight_grams 300 && e.is_metal == some false
      && labelUnknown e.cv_label then
    add_candidate s UNKNOWN 0.80
      "Sensor-driven: No clear visual ID, but item is very heavy (>300g) and not metal. Needs manual inspection."
      "Manual Inspection Bin" else s
  -- salience 5, rule_low_confidence_container (0.3 <= c < 0.5, emits two candidates)
  let s := if labelIn e.cv_label ["bottle", "cup", "bowl"]
      && qge e.cv_confidence 0.3 && qlt e.cv_confidence 0.5 then
    add_candidate
      (add_candidate s PLASTIC_PET 0.60
        ("Low confidence visual detection of '" ++ lbl e ++ "'. Could be various materials.")
        "Plastic (PET) Recycling Bin")
      UNKNOWN 0.65 "Low confidence detection" "Manual Inspection Bin" else s
  -- salience 4, rule_low_confidence_food (emits two candidates)
  let s := if labelIn e.cv_label food_labels
      && qge e.cv_confidence 0.3 && qlt e.cv_confidence 0.5 then
    add_candidate
      (add_candidate s ORGANIC 0.60
        ("Low confidence visual detection of food item ('" ++ lbl e ++ "'). Possibly organic.")
        "Organic Waste / Compost Bin")
      UNKNOWN 0.55 "Uncertain food identification" "Manual Inspection Bin" else s
  s

/-- The reason text built by the terminal fallback.  `len(self.facts) > 1`
holds exactly when a `WasteFact` was declared (index 0 is the `InitialFact`).
The Python `:.2f` float rendering is abstracted by `toString`. -/
def fallback_reason : Option WasteFact → String
  | some e =>
      "No specific rules matched. Visual: '" ++ (e.cv_label.getD "unknown")
        ++ "' (conf: " ++ toString (e.cv_confidence.getD 0)
        ++ "), Weight: "
        ++ (match e.weight_grams with
            | some w => toString w
            | none => "unknown")
        ++ "g. Manual inspection required."
  | none => "No specific rules matched and no WasteFact was found."

/-- `rule_final_fallback_unknown` (salience -1): fires unconditionally (its
pattern is the implicit `InitialFact`), is a no-op unless the candidate list
is still empty, and otherwise emits one UNKNOWN candidate at confidence 0.5. -/
def rule_final_fallback_unknown (fe : Option WasteFact) (s : Engine) : Engine :=
  if s.candidates.isEmpty then
    add_candidate s UNKNOWN 0.5 (fallback_reason fe) "Manual Inspection Bin"
  else s

/-- experta `run()`: one ordered pass over the rule set (no rule asserts new
facts, so the agenda never refills).  The 37 ordinary rules all pattern-match
the declared `WasteFact`, hence fire only when one is present; the terminal
fallback matches `InitialFact` and therefore runs in either case, last
because its salience -1 is the minimum. -/
def run (s : Engine) : Engine :=
  match s.fact with
  | some e => rule_final_fallback_unknown (some e) (fire_rules e s)
  | none => rule_final_fallback_unknown none s

end Services

/-
`SmartBin.Basic` — the engine of `src/smart_bin/core/knowledge_engine.py`,
the revision with manual-override support.  The two salience-110 rules and
the six salience-100 rules have pairwise exclusive label guards, so the
declaration order used below coincides with every experta firing order.
-/
namespace Basic

/-- The mutable per-instance state of this `SmartBinKnowledgeEngine`
(`self.candidates`, `self.reasoning_trace`, `self.manual_override`) together
with experta's working memory. -/
structure Engine where
  candidates : List WasteClassification
  reasoning_trace : List String
  manual_override : Option WasteClassification
  fact : Option WasteFact
deriving DecidableEq, Repr

/-- `__init__`. -/
def init : Engine := ⟨[], [], none, none⟩

/-- `add_candidate`: appends the classification and three trace lines (the
`print` calls are console I/O, outside the decision core). -/
def add_candidate (s : Engine) (category : WasteCategory) (confidence : ℚ)
    (reasoning : String) (disposal_location : String) : Engine :=
  { s with
    candidates := s.candidates ++ [⟨category, confidence, reasoning, disposal_location, 0⟩]
    reasoning_trace := s.reasoning_trace ++
      ["→ Candidate Classification: " ++ category.value.toUpper,
       "   Reason: " ++ reasoning,
       "   Proposed Disposal: " ++ disposal_location] }

/-- `get_final_decision`: an override, when set, replaces the resolver's
output; otherwise the resolver picks among the accumulated candidates.  In
both cases the candidate list and trace are copied into the decision. -/
def get_final_decision (s : Engine) : ClassificationDecision :=
  match s.manual_override with
  | some ov => mkClassificationDecision (some ov) s.candidates s.reasoning_trace true
  | none =>
      mkClassificationDecision (resolve_candidates s.candidates)
        s.candidates s.reasoning_trace false

/-- `set_manual_override`: stores an override classification at confidence
1.0 whose reasoning is the user text behind the fixed prefix. -/
def set_manual_override (s : Engine) (category : WasteCategory)
    (disposal_location : String) (reasoning : String) : Engine :=
  let ov : WasteClassification :=
    ⟨category, 1, "User override: " ++ reasoning, disposal_location, 0⟩
  { s with manual_override := some ov }

/-- `reset_classification`: clears candidates, override and trace, and
`self.reset()` retracts the declared fact. -/
def reset_classification (_ : Engine) : Engine := ⟨[], [], none, none⟩

/-- experta `declare`. -/
def declare (s : Engine) (e : WasteFact) : Engine := { s with fact := some e }

/-- The 13 ordinary production rules, fired in descending salience order. -/
def fire_rules (e : WasteFact) (s : Engine) : Engine :=
  -- salience 110, rule_battery_metal_combined
  let s := if e.cv_label == some "battery" && e.is_metal == some true then
    add_candidate s EWASTE 1.0
      "CV detected battery and metal sensor triggered; classified as e-waste due to domain knowledge."
      "E-waste collection point" else s
  -- salience 110, rule_hazardous_paint_can
  let s := if e.cv_label == some "paint can" && e.is_metal == some true then
    add_candidate s HAZARDOUS 1.0
      "CV detected paint can and metal sensor triggered; hazardous waste prioritized."
      "Hazardous waste disposal facility" else s
  -- salience 100, rule_can
  let s := if e.cv_label == some "can" && qge e.cv_confidence 0.7 then
    add_candidate s METAL 0.9
      "Computer vision confidently identified the item as 'can'. Metal detected by shape and texture."
      "Metal recycling bin" else s
  -- salience 100, rule_banana_peel
  let s := if e.cv_label == some "banana peel" && qge e.cv_confidence 0.7 then
    add_candidate s ORGANIC 0.9
      "Computer vision confidently identified the item as 'banana peel'. Typical organic shape and color."
      "Organic waste bin / Compost bin" else s
  -- salience 100, rule_apple_core
  let s := if e.cv_label == some "apple core" && qge e.cv_confidence 0.7 then
    add_candidate s ORGANIC 0.9
      "Computer vision confidently identified the item as 'apple core'. Typical organic shape and color."
      "Organic waste bin / Compost bin" else s
  -- salience 100, rule_paper
  let s := if e.cv_label == some "paper" && qge e.cv_confidence 0.7 then
    add_candidate s PAPER 0.85
      "Computer vision confidently identified the item as 'paper'. Paper-like texture confirmed."
      "Paper recycling bin" else s
  -- salience 100, rule_plastic_bottle
  let s := if e.cv_label == some "plastic bottle" && qge e.cv_confidence 0.7 then
    add_candidate s PLASTIC_PET 0.85
      "Computer vision confidently identified the item as 'plastic bottle'. PET shape and transparency detected."
      "Plastic PET recycling bin" else s
  -- salience 100, rule_glass_bottle
  let s := if e.cv_label == some "glass bottle" && qge e.cv_confidence 0.7 then
    add_candidate s GLASS 0.9
      "Computer vision confidently identified the item as 'glass bottle'. Glass texture and shape identified."
      "Glass recycling bin" else s
  -- salience 90, rule_metal_sensor
  let s := if e.is_metal == some true then
    add_candidate s METAL 0.95
      "Metal sensor triggered indicating metal presence."
      "Metal recycling bin" else s
  -- salience 80, rule_moisture_sensor
  let s := if e.is_moist == some true then
    add_candidate s ORGANIC 0.7
      "Moisture detected; item is likely organic or wet paper."
      "Organic waste bin / Compost bin" else s
  -- salience 75, rule_heavy_item
  let s := if qgt e.weight_grams 500 then
    add_candidate s ORGANIC 0.6
      "Item is heavy (>500g); may be bulk organic waste or metal."
      "Organic waste bin / Compost bin" else s
  -- salience 70, rule_transparency
  let s := if e.is_transparent == some true then
    add_candidate s PLASTIC_PET 0.75
      "Item is transparent, often indicating PET plastic."
      "Plastic PET recycling bin" else s
  -- salience 65, rule_flexibility
  let s := if e.is_flexible == some true then
    add_candidate s PLASTIC_SOFT 0.6
      "Flexible item detected, may be soft plastic or paper."
      "Special soft plastics recycling bin or trash" else s
  s

/-- `fallback_rule` (salience 10): its pattern `WasteFact()` matches any
declared fact, and the action is a no-op unless the candidate list is still
empty. -/
def fallback_rule (s : Engine) : Engine :=
  if s.candidates.isEmpty then
    add_candidate s UNKNOWN 0.3 "No clear indicators found." "Manual sorting recommended"
  else s

/-- experta `run()`: one ordered pass; every rule of this engine (the
fallback included) pattern-matches a `WasteFact`, so nothing fires when no
fact has been declared. -/
def run (s : Engine) : Engine :=
  match s.fact with
  | some e => fallback_rule (fire_rules e s)
  | none => s

end Basic

/-! Helper lemmas about the resolver and the two engines. -/

theorem resolve_candidates_isSome {l : List WasteClassification} (h : l ≠ []) :
    ∃ c, resolve_candidates l = some c := by
  cases l with
  | nil => exact absurd rfl h
  | cons c cs => exact ⟨cs.foldl maxStep c, rfl⟩

@[simp]
theorem Services.add_candidate_candidates (s : Services.Engine) (c : WasteCategory)
    (q : ℚ) (r loc : String) :
    (Services.add_candidate s c q r loc).candidates = s.candidates ++ [⟨c, q, r, loc, 0⟩] :=
  rfl

theorem Services.fallback_keeps_candidates_ne_nil (fe : Option WasteFact) (s : Services.Engine) :
    (Services.rule_final_fallback_unknown fe s).candidates ≠ [] := by
  unfold Services.rule_final_fallback_unknown
  by_cases h : s.candidates.isEmpty
  · simp [h]
  · simp only [h, Bool.false_eq_true, if_false]
    intro hnil
    exact h (by rw [hnil]; rfl)

@[simp]
theorem Basic.add_candidate_manual_override (s : Basic.Engine) (c : WasteCategory)
    (q : ℚ) (r loc : String) :
    (Basic.add_candidate s c q r loc).manual_override = s.manual_override :=
  rfl

@[simp]
theorem Basic.ite_manual_override (c : Prop) [Decidable c] (a b : Basic.Engine) :
    (ite c a b).manual_override = ite c a.manual_override b.manual_override := by
  split <;> rfl

theorem Basic.fire_rules_manual_override (e : WasteFact) (s : Basic.Engine) :
    (Basic.fire_rules e s).manual_override = s.manual_override := by
  simp [Basic.fire_rules]

theorem Basic.fallback_rule_manual_override (s : Basic.Engine) :
    (Basic.fallback_rule s).manual_override = s.manual_override := by
  simp [Basic.fallback_rule]

theorem Basic.fallback_rule_candidates_ne_nil (s : Basic.Engine) :
    (Basic.fallback_rule s).candidates ≠ [] := by
  unfold Basic.fallback_rule
  by_cases h : s.candidates.isEmpty
  · simp [h, Basic.add_candidate]
  · simp only [h, Bool.false_eq_true, if_false]
    intro hnil
    exact h (by rw [hnil]; rfl)

theorem Basic.get_final_decision_candidates (s : Basic.Engine) :
    (Basic.get_final_decision s).candidates = s.candidates := by
  cases h : s.manual_override <;>
    simp [Basic.get_final_decision, h, mkClassificationDecision]

theorem Basic.get_final_decision_trace (s : Basic.Engine) :
    (Basic.get_final_decision s).reasoning_trace = s.reasoning_trace := by
  cases h : s.manual_override <;>
    simp [Basic.get_final_decision, h, mkClassificationDecision]

theorem Basic.get_final_decision_of_no_override (s : Basic.Engine)
    (h : s.manual_override = none) :
    (Basic.get_final_decision s).final_classification = resolve_candidates s.candidates := by
  simp [Basic.get_final_decision, h, mkClassificationDecision]

/-! The claims. -/

/-- Claim C1: totality via the terminal fallback — for every Evidence Record
(all-absent included), reset → declare → run → decision yields a non-null
final classification in both engine revisions, because the run always ends
with at least one candidate: the lowest-salience fallback rule emits an
UNKNOWN candidate whenever the candidate list is still empty when it fires. -/
theorem totality_via_terminal_fallback (e : WasteFact)
    (sB : Services.Engine) (sA : Basic.Engine) :
    (Services.run (Services.declare (Services.reset sB) e)).candidates ≠ [] ∧
    (Services.get_final_decision
      (Services.run (Services.declare (Services.reset sB) e))).final_classification ≠ none ∧
    (Basic.run (Basic.declare (Basic.reset_classification sA) e)).candidates ≠ [] ∧
    (Basic.get_final_decision
      (Basic.run (Basic.declare (Basic.reset_classification sA) e))).final_classification ≠ none := by
  have hBne : (Services.run (Services.declare (Services.reset sB) e)).candidates ≠ [] := by
    show (Services.rule_final_fallback_unknown (some e)
      (Services.fire_rules e ⟨[], [], some e⟩)).candidates ≠ []
    exact Services.fallback_keeps_candidates_ne_nil _ _
  have hAne : (Basic.run (Basic.declare (Basic.reset_classification sA) e)).candidates ≠ [] := by
    show (Basic.fallback_rule (Basic.fire_rules e ⟨[], [], none, some e⟩)).candidates ≠ []
    exact Basic.fallback_rule_candidates_ne_nil _
  refine ⟨hBne, ?_, hAne, ?_⟩
  · obtain ⟨c, hc⟩ := resolve_candidates_isSome hBne
    show (mkClassificationDecision
      (resolve_candidates (Services.run (Services.declare (Services.reset sB) e)).candidates)
      _ _ false).final_classification ≠ none
    simp [mkClassificationDecision, hc]
  · have hov : (Basic.run (Basic.declare (Basic.reset_classification sA) e)).manual_override = none := by
      show (Basic.fallback_rule (Basic.fire_rules e ⟨[], [], none, some e⟩)).manual_override = none
      rw [Basic.fallback_rule_manual_override, Basic.fire_rules_manual_override]
    rw [Basic.get_final_decision_of_no_override _ hov]
    obtain ⟨c, hc⟩ := resolve_candidates_isSome hAne
    simp [hc]

/-- Claim C2: resolver selection contract — on every non-empty candidate
list, `resolve_candidates` returns a member maximizing the lexicographic key
`(priority_order category, confidence)`: no candidate priority-dominates it,
among equal priorities none has larger confidence, and every candidate
strictly before it in input order has a strictly smaller key (so exact ties
go to the first candidate encountered). -/
theorem resolver_selection_contract (l : List WasteClassification) (hl : l ≠ []) :
    ∃ c, resolve_candidates l = some c ∧ c ∈ l ∧
      (∀ x ∈ l, keyLe (sort_key x) (sort_key c)) ∧
      (∀ x ∈ l, priority_order x.category ≤ priority_order c.category) ∧
      (∀ x ∈ l, priority_order x.category = priority_order c.category →
        x.confidence ≤ c.confidence) ∧
      ∃ l1 l2, l = l1 ++ c :: l2 ∧ ∀ x ∈ l1, keyLt (sort_key x) (sort_key c) := by
  cases l with
  | nil => exact absurd rfl hl
  | cons c0 cs =>
    refine ⟨cs.foldl maxStep c0, rfl, foldl_maxStep_mem cs c0,
      keyLe_foldl_maxStep cs c0, ?_, ?_, foldl_maxStep_first cs c0⟩
    · intro x hx
      have h := keyLe_foldl_maxStep cs c0 x hx
      simp only [keyLe, sort_key] at h
      rcases h with h | ⟨h1, _⟩
      · exact le_of_lt h
      · exact le_of_eq h1
    · intro x hx hp
      have h := keyLe_foldl_maxStep cs c0 x hx
      simp only [keyLe, sort_key] at h
      rcases h with h | ⟨_, h2⟩
      · exact absurd hp (Nat.ne_of_lt h)
      · exact h2

/-- The spec's own priority-dominance example: a PAPER candidate at
confidence 0.95 followed by a HAZARDOUS candidate at confidence 0.6. -/
def tie_example : List WasteClassification :=
  [⟨PAPER, 0.95, "Very confident paper", "Paper bin", 0⟩,
   ⟨HAZARDOUS, 0.6, "Low confidence hazardous", "Hazardous bin", 0⟩]

/-- Witness for C2, at the spec's priority-dominance example. -/
theorem resolver_selection_contract_witness :
    ∃ c, resolve_candidates tie_example = some c ∧ c ∈ tie_example ∧
      (∀ x ∈ tie_example, keyLe (sort_key x) (sort_key c)) ∧
      (∀ x ∈ tie_example, priority_order x.category ≤ priority_order c.category) ∧
      (∀ x ∈ tie_example, priority_order x.category = priority_order c.category →
        x.confidence ≤ c.confidence) ∧
      ∃ l1 l2, tie_example = l1 ++ c :: l2 ∧
        ∀ x ∈ l1, keyLt (sort_key x) (sort_key c) :=
  resolver_selection_contract tie_example (List.cons_ne_nil _ _)

/-- Counterexample to claim C3: the Category Priority Table is not injective —
METAL and ORGANIC are two distinct categories that are both assigned rank 4
(likewise PLASTIC_PET/PAPER share 3, PLASTIC_SOFT/TEXTILE share 2, and
RUBBER/COMPOSITE share 1). -/
theorem priority_order_not_injective :
    priority_order METAL = priority_order ORGANIC ∧ METAL ≠ ORGANIC := by
  decide

/-- The four pairs of distinct categories that share a rank in
`priority_order`. -/
def rank_tied_pairs : List (WasteCategory × WasteCategory) :=
  [(METAL, ORGANIC), (PLASTIC_PET, PAPER), (PLASTIC_SOFT, TEXTILE), (RUBBER, COMPOSITE)]

/-- Claim C3 (amended): the Category Priority Table is injective except on
the four deliberately tied pairs METAL/ORGANIC (rank 4), PLASTIC_PET/PAPER
(rank 3), PLASTIC_SOFT/TEXTILE (rank 2) and RUBBER/COMPOSITE (rank 1): any
two categories with the same rank are equal or form one of those pairs. -/
theorem priority_order_injective_outside_tied_pairs :
    ∀ c d : WasteCategory, priority_order c = priority_order d →
      c = d ∨ (c, d) ∈ rank_tied_pairs ∨ (d, c) ∈ rank_tied_pairs := by
  decide

/-- Witness for the amended C3, at the pair METAL/ORGANIC. -/
theorem priority_order_injective_outside_tied_pairs_witness :
    priority_order METAL = priority_order ORGANIC ∧
      (METAL = ORGANIC ∨ (METAL, ORGANIC) ∈ rank_tied_pairs ∨
        (ORGANIC, METAL) ∈ rank_tied_pairs) :=
  ⟨by decide, priority_order_injective_outside_tied_pairs METAL ORGANIC (by decide)⟩

/-- The Evidence Record of spec scenario (2): `cv_label="paint can"`,
`is_metal=true`, every other field absent. -/
def paint_can_fact : WasteFact :=
  { cv_label := some "paint can", is_metal := some true }

/-- Claim C4: on the `Basic` engine a full run over the paint-can record
fires `rule_hazardous_paint_can` and `rule_metal_sensor`, and the resolver
lets HAZARDOUS (rank 7) outrank the METAL candidate (rank 4): the final
classification category is HAZARDOUS. -/
theorem paint_can_metal_yields_hazardous :
    ((Basic.get_final_decision
        (Basic.run (Basic.declare (Basic.reset_classification Basic.init) paint_can_fact))
      ).final_classification.map (fun c => c.category) = some HAZARDOUS) ∧
    ((Basic.run (Basic.declare (Basic.reset_classification Basic.init) paint_can_fact)
      ).candidates.map (fun c => c.category) = [HAZARDOUS, METAL]) := by
  constructor <;> rfl

/-- The Evidence Record of spec scenario (3) exactly as the claim states it:
`cv_label="bottle"`, `is_metal=false`, `weight_grams=200`, all other fields
absent. -/
def bottle200_fact : WasteFact :=
  { cv_label := some "bottle", is_metal := some false, weight_grams := some 200 }

/-- The same record with `is_transparent=true` added. -/
def bottle200_transparent_fact : WasteFact :=
  { cv_label := some "bottle", is_metal := some false, weight_grams := some 200,
    is_transparent := some true }

/-- Counterexample to claim C5: on the record with `cv_label="bottle"`,
`is_metal=false`, `weight_grams=200` and everything else absent, no ordinary
rule of the `Services` engine matches (`rule_heavy_transparent_bottle` also
requires `is_transparent=True`, and the ambiguous bottle rule requires a
`cv_confidence`), so only the terminal fallback fires and the final category
is UNKNOWN, not GLASS. -/
theorem bottle200_yields_unknown_not_glass :
    ((Services.get_final_decision
        (Services.run (Services.declare (Services.reset Services.init) bottle200_fact))
      ).final_classification.map (fun c => c.category) = some UNKNOWN) ∧
    ¬ ((Services.get_final_decision
        (Services.run (Services.declare (Services.reset Services.init) bottle200_fact))
      ).final_classification.map (fun c => c.category) = some GLASS) := by
  constructor
  · rfl
  · intro h
    exact absurd (rfl.trans h) (by decide)

/-- Claim C5 (amended): with `is_transparent=true` added to the record —
the one field the claim's scenario omitted but `rule_heavy_transparent_bottle`
requires — the full `Services` run yields final category GLASS (that rule is
the only one that fires). -/
theorem bottle200_transparent_yields_glass :
    ((Services.get_final_decision
        (Services.run (Services.declare (Services.reset Services.init)
          bottle200_transparent_fact))
      ).final_classification.map (fun c => c.category) = some GLASS) ∧
    ((Services.run (Services.declare (Services.reset Services.init)
        bottle200_transparent_fact)).candidates.map (fun c => c.category) = [GLASS]) := by
  constructor <;> rfl

/-- Claim C6: override transparency on the `Basic` engine — after a run,
setting a manual override changes the decision's final classification (to the
override, at confidence 1.0 behind the "User override: " prefix) and sets
`is_manual_override`, while the decision's candidates and reasoning trace are
exactly those of the pre-override decision of the same run. -/
theorem manual_override_transparency (s0 : Basic.Engine) (e : WasteFact)
    (cat : WasteCategory) (loc reason : String) :
    (Basic.get_final_decision (Basic.set_manual_override
        (Basic.run (Basic.declare (Basic.reset_classification s0) e)) cat loc reason)
      ).candidates =
      (Basic.get_final_decision
        (Basic.run (Basic.declare (Basic.reset_classification s0) e))).candidates ∧
    (Basic.get_final_decision (Basic.set_manual_override
        (Basic.run (Basic.declare (Basic.reset_classification s0) e)) cat loc reason)
      ).reasoning_trace =
      (Basic.get_final_decision
        (Basic.run (Basic.declare (Basic.reset_classification s0) e))).reasoning_trace ∧
    (Basic.get_final_decision (Basic.set_manual_override
        (Basic.run (Basic.declare (Basic.reset_classification s0) e)) cat loc reason)
      ).final_classification =
      some ⟨cat, 1, "User override: " ++ reason, loc, 0⟩ ∧
    (Basic.get_final_decision (Basic.set_manual_override
        (Basic.run (Basic.declare (Basic.reset_classification s0) e)) cat loc reason)
      ).is_manual_override = true := by
  refine ⟨?_, ?_, rfl, rfl⟩
  · rw [Basic.get_final_decision_candidates, Basic.get_final_decision_candidates]
    rfl
  · rw [Basic.get_final_decision_trace, Basic.get_final_decision_trace]
    rfl

/-- Claim C7: determinism — reset → declare → run on the same engine instance
twice in succession produces identical candidate lists and identical
decisions, for both engine revisions (reset wipes all run state, so the
second run starts from the same cleared state as the first). -/
theorem rerun_determinism (e : WasteFact)
    (sB : Services.Engine) (sA : Basic.Engine) :
    (Services.run (Services.declare (Services.reset sB) e)).candidates =
      (Services.run (Services.declare (Services.reset
        (Services.run (Services.declare (Services.reset sB) e))) e)).candidates ∧
    Services.get_final_decision (Services.run (Services.declare (Services.reset sB) e)) =
      Services.get_final_decision (Services.run (Services.declare (Services.reset
        (Services.run (Services.declare (Services.reset sB) e))) e)) ∧
    (Basic.run (Basic.declare (Basic.reset_classification sA) e)).candidates =
      (Basic.run (Basic.declare (Basic.reset_classification
        (Basic.run (Basic.declare (Basic.reset_classification sA) e))) e)).candidates ∧
    Basic.get_final_decision (Basic.run (Basic.declare (Basic.reset_classification sA) e)) =
      Basic.get_final_decision (Basic.run (Basic.declare (Basic.reset_classification
        (Basic.run (Basic.declare (Basic.reset_classification sA) e))) e)) :=
  ⟨rfl, rfl, rfl, rfl⟩

/-- Claim C8: the resolver returns `None` (no decision) on an empty candidate
list, a normal outcome rather than an exception or a classification. -/
theorem resolve_candidates_nil : resolve_candidates [] = none := rfl

/-- Claim C9: whatever `resolve_candidates` returns on a non-empty list is one
of the input candidates, returned unchanged — the resolver never constructs a
new classification nor modifies one. -/
theorem resolver_returns_member (l : List WasteClassification)
    (c : WasteClassification) (h : resolve_candidates l = some c) : c ∈ l := by
  cases l with
  | nil => simp [resolve_candidates] at h
  | cons c0 cs =>
    have hc : cs.foldl maxStep c0 = c := by
      simpa [resolve_candidates] using h
    rw [← hc]
    exact foldl_maxStep_mem cs c0

/-- Witness for C9, on a singleton candidate list. -/
theorem resolver_returns_member_witness :
    (⟨METAL, 0.8, "Single candidate", "Metal bin", 0⟩ : WasteClassification) ∈
      [(⟨METAL, 0.8, "Single candidate", "Metal bin", 0⟩ : WasteClassification)] :=
  resolver_returns_member _ _ rfl

/-- Claim C10: `set_manual_override` always stores an override classification
with confidence exactly 1.0 and reasoning prefixed by "User override: ", and
any decision taken while the override is set therefore has
`confidence_score = 1.0` (via `__post_init__`), whatever the candidates'
confidences are. -/
theorem manual_override_confidence_one (s : Basic.Engine)
    (cat : WasteCategory) (loc reason : String) :
    (Basic.set_manual_override s cat loc reason).manual_override =
      some ⟨cat, 1, "User override: " ++ reason, loc, 0⟩ ∧
    (Basic.get_final_decision
      (Basic.set_manual_override s cat loc reason)).confidence_score = 1 ∧
    (Basic.get_final_decision
      (Basic.set_manual_override s cat loc reason)).is_manual_override = true :=
  ⟨rfl, rfl, rfl⟩

end SmartRecyclingBin
